import Mathlib

/-!
Shallow embedding of the mpl-token-metadata core under verification:
the delegate processor (`delegate.rs`), the burn processor (`burn.rs`)
and the update-instruction argument types (`instruction/metadata.rs`).

Principals and account addresses are modelled as natural numbers.
External collaborators that are not part of the sources (the spl-token
ledger, account allocation, PDA derivation, the authority resolver) are
modelled from the specification and marked as such in their doc comments.
-/

/-- Account address / principal identity. -/
abbrev Pubkey := Nat

/-- Address of the token-metadata program itself (crate ID). -/
def crateID : Pubkey := 0

/-- Address of the spl-token program. -/
def splTokenID : Pubkey := 1

/-- Address of the system program. -/
def systemProgramID : Pubkey := 2

/-- Address of the instructions sysvar account. -/
def sysvarInstructionsID : Pubkey := 3

/-- Token standards supported by the program (state module). -/
inductive TokenStandard where
  | NonFungible
  | FungibleAsset
  | Fungible
  | NonFungibleEdition
  | ProgrammableNonFungible
deriving DecidableEq, Repr

/-- Roles of token-scoped (persistent) delegates. -/
inductive TokenDelegateRole where
  | Sale
  | Transfer
  | Utility
  | Staking
deriving DecidableEq, Repr

/-- Roles of metadata-scoped delegates (`MetadataDelegateRole`). -/
inductive MetadataDelegateRole where
  | Collection
  | Update
deriving DecidableEq, Repr

/-- State machine states of a `TokenRecord`. -/
inductive TokenState where
  | Unlocked
  | Locked
  | Listed
deriving DecidableEq, Repr

/-- The `TokenRecord` account data for programmable assets. -/
structure TokenRecord where
  bump : Nat
  state : TokenState
  delegate : Option Pubkey
  delegateRole : Option TokenDelegateRole
deriving DecidableEq, Repr

/-- A verified creator entry of the metadata display data. -/
structure Creator where
  address : Pubkey
  verified : Bool
  share : Nat
deriving DecidableEq, Repr

/-- Display data block of an asset metadata account. -/
structure Data where
  name : String
  symbol : String
  uri : String
  sellerFeeBasisPoints : Nat
  creators : Option (List Creator)
deriving DecidableEq, Repr

/-- Collection membership information. -/
structure Collection where
  verified : Bool
  key : Pubkey
deriving DecidableEq, Repr

/-- Collection parent details (sized collections). -/
structure CollectionDetails where
  size : Nat
deriving DecidableEq, Repr

/-- Usage information of an asset. -/
structure Uses where
  remaining : Nat
  total : Nat
deriving DecidableEq, Repr

/-- Programmable configuration: reference to an external rule set. -/
structure ProgrammableConfig where
  ruleSet : Option Pubkey
deriving DecidableEq, Repr

/-- The asset metadata account (`Metadata` in the state module). -/
structure Metadata where
  updateAuthority : Pubkey
  mint : Pubkey
  data : Data
  primarySaleHappened : Bool
  isMutable : Bool
  tokenStandard : Option TokenStandard
  collection : Option Collection
  uses : Option Uses
  collectionDetails : Option CollectionDetails
  programmableConfig : Option ProgrammableConfig
deriving DecidableEq, Repr

/-- Opaque authorization payload forwarded to the external policy engine. -/
structure AuthorizationData where
  payload : Nat
deriving DecidableEq, Repr

/-- Instruction-level authority tag (`AuthorityType` in
`instruction/metadata.rs`). -/
inductive InstructionAuthorityType where
  | Metadata
  | Delegate
  | Holder
  | Other
deriving DecidableEq, Repr

/-- Three-state toggle for the collection field (`CollectionToggle`). -/
inductive CollectionToggle where
  | None
  | Clear
  | Set (value : Collection)
deriving DecidableEq, Repr

/-- Three-state toggle for the uses field (`UsesToggle`). -/
inductive UsesToggle where
  | None
  | Clear
  | Set (value : Uses)
deriving DecidableEq, Repr

/-- Three-state toggle for the collection-details field
(`CollectionDetailsToggle`). -/
inductive CollectionDetailsToggle where
  | None
  | Clear
  | Set (value : CollectionDetails)
deriving DecidableEq, Repr

/-- Three-state toggle for the programmable-config field
(`ProgrammableConfigToggle`). -/
inductive ProgrammableConfigToggle where
  | None
  | Clear
  | Set (value : ProgrammableConfig)
deriving DecidableEq, Repr

/-- `CollectionToggle::to_option`. The source matches `Set(value)` to
`Some(value)`, `Clear` to `None`, and panics on the `None` variant; the
panic is modelled by the outer `Option.none`. -/
def CollectionToggle.to_option : CollectionToggle → Option (Option Collection)
  | .Set value => some (some value)
  | .Clear => some none
  | .None => none

/-- `UsesToggle::to_option`; panics on the `None` variant (outer
`Option.none`). -/
def UsesToggle.to_option : UsesToggle → Option (Option Uses)
  | .Set value => some (some value)
  | .Clear => some none
  | .None => none

/-- `CollectionDetailsToggle::to_option`; panics on the `None` variant
(outer `Option.none`). -/
def CollectionDetailsToggle.to_option :
    CollectionDetailsToggle → Option (Option CollectionDetails)
  | .Set value => some (some value)
  | .Clear => some none
  | .None => none

/-- `ProgrammableConfigToggle::to_option`; panics on the `None` variant
(outer `Option.none`). -/
def ProgrammableConfigToggle.to_option :
    ProgrammableConfigToggle → Option (Option ProgrammableConfig)
  | .Set t => some (some t)
  | .Clear => some none
  | .None => none

/-- Arguments of the Update instruction (`UpdateArgs::V1`). -/
structure UpdateArgsV1 where
  authorityType : InstructionAuthorityType
  authorizationData : Option AuthorizationData
  newUpdateAuthority : Option Pubkey
  data : Option Data
  primarySaleHappened : Option Bool
  isMutable : Option Bool
  collection : CollectionToggle
  collectionDetails : CollectionDetailsToggle
  uses : UsesToggle
  programmableConfig : ProgrammableConfigToggle
deriving DecidableEq, Repr

/-- The `Default` impl of `UpdateArgs`: every toggle `None`, every
optional field `None`, authority type `Metadata`. -/
def UpdateArgsV1.default : UpdateArgsV1 :=
  { authorityType := .Metadata
    authorizationData := none
    newUpdateAuthority := none
    data := none
    primarySaleHappened := none
    isMutable := none
    collection := .None
    uses := .None
    collectionDetails := .None
    programmableConfig := .None }

/-- Semantics of a collection toggle on the stored optional field:
`None` keeps the value, `Clear` resets it, `Set` replaces it. -/
def CollectionToggle.apply : CollectionToggle → Option Collection → Option Collection
  | .None, old => old
  | .Clear, _ => none
  | .Set value, _ => some value

/-- Semantics of a uses toggle on the stored optional field. -/
def UsesToggle.apply : UsesToggle → Option Uses → Option Uses
  | .None, old => old
  | .Clear, _ => none
  | .Set value, _ => some value

/-- Semantics of a collection-details toggle on the stored field. -/
def CollectionDetailsToggle.apply :
    CollectionDetailsToggle → Option CollectionDetails → Option CollectionDetails
  | .None, old => old
  | .Clear, _ => none
  | .Set value, _ => some value

/-- Semantics of a programmable-config toggle on the stored field. -/
def ProgrammableConfigToggle.apply :
    ProgrammableConfigToggle → Option ProgrammableConfig → Option ProgrammableConfig
  | .None, old => old
  | .Clear, _ => none
  | .Set t, _ => some t

/-- Modelled from the spec: the Update operation handler (its processor
is not among the sources; only `UpdateArgs` is). Optional fields set to
`None` leave the stored value unchanged, `Some` replaces it; toggles
follow the three-state semantics (`None` = no change, `Clear` = reset,
`Set` = replace). -/
def update_v1_apply (md : Metadata) (args : UpdateArgsV1) : Metadata :=
  { md with
    updateAuthority := args.newUpdateAuthority.getD md.updateAuthority
    data := args.data.getD md.data
    primarySaleHappened := args.primarySaleHappened.getD md.primarySaleHappened
    isMutable := args.isMutable.getD md.isMutable
    collection := args.collection.apply md.collection
    collectionDetails := args.collectionDetails.apply md.collectionDetails
    uses := args.uses.apply md.uses
    programmableConfig := args.programmableConfig.apply md.programmableConfig }

/-- Error values surfaced by the processors (`MetadataError` together
with the generic program errors raised by the assertion helpers). -/
inductive TmError where
  | MissingRequiredSignature
  | IncorrectOwner
  | IncorrectProgramId
  | UninitializedAccount
  | MintMismatch
  | InsufficientTokenBalance
  | InvalidAuthorityType
  | InvalidAmount
  | MissingEdition
  | MissingTokenRecord
  | IncorrectTokenState
  | MissingTokenAccount
  | MissingSplTokenProgram
  | DelegateAlreadyExists
  | InvalidTokenStandard
  | MissingEditionAccount
  | UpdateAuthorityIncorrect
  | DerivedKeyInvalid
  | KeyMismatch
  | InvalidOwner
  | NotEnoughTokens
deriving DecidableEq, Repr

/-- An spl-token balance account. -/
structure TokenAccount where
  mint : Pubkey
  owner : Pubkey
  amount : Nat
  delegate : Option Pubkey
  delegatedAmount : Nat
deriving DecidableEq, Repr

/-- A supplied token account: the program that owns the account plus its
deserialized data. -/
structure TokenInfo where
  ownerProg : Pubkey
  account : TokenAccount
deriving DecidableEq, Repr

/-- A supplied token-record account: its address, owning program and
deserialized data. -/
structure TokenRecordInfo where
  key : Pubkey
  ownerProg : Pubkey
  record : TokenRecord
deriving DecidableEq, Repr

/-- A supplied metadata-delegate record account: its address and whether
its data is still empty (not yet allocated). -/
structure DelegateRecordInfo where
  key : Pubkey
  dataIsEmpty : Bool
deriving DecidableEq, Repr

/-- Modelled from the spec: `find_token_record_account` (pda module, not
among the sources) — a program-derived reference computed
deterministically from the mint and the token-account owner. -/
def find_token_record_account (mint approver : Pubkey) : Pubkey :=
  Nat.pair mint approver

/-- Numeric tag of a metadata-delegate role, standing in for the role
string used as a derivation seed. -/
def MetadataDelegateRole.idx : MetadataDelegateRole → Nat
  | .Collection => 0
  | .Update => 1

/-- Modelled from the spec: the program-derived address of a
metadata-delegate record, computed deterministically from the seeds
(program id, mint, role, approver, delegate) checked by
`assert_derivation` in `create_pda_account`. -/
def metadata_delegate_record_key (programId mint : Pubkey)
    (role : MetadataDelegateRole) (approver delegateKey : Pubkey) : Pubkey :=
  Nat.pair programId (Nat.pair mint (Nat.pair role.idx (Nat.pair approver delegateKey)))

/-- Accounts and deserialized data supplied to the Delegate instruction
(the `Delegate` context of `delegate.rs`). -/
structure DelegateCtx where
  programId : Pubkey
  delegateKey : Pubkey
  approverKey : Pubkey
  payerIsSigner : Bool
  approverIsSigner : Bool
  metadataOwnerProg : Pubkey
  mintOwnerProg : Pubkey
  mintKey : Pubkey
  systemProgramKey : Pubkey
  sysvarInstructionsKey : Pubkey
  metadata : Metadata
  tokenInfo : Option TokenInfo
  splTokenProgramKey : Option Pubkey
  tokenRecordInfo : Option TokenRecordInfo
  masterEditionOwnerProg : Option Pubkey
  delegateRecordInfo : Option DelegateRecordInfo
deriving DecidableEq, Repr

/-- Observable effects of a successful persistent-delegate creation:
the serialized token record (for programmable assets), the spl-token
approve that was invoked, and the thaw/freeze ledger effects. -/
structure PersistentDelegateOutcome where
  tokenRecord : Option TokenRecord
  approvedDelegate : Pubkey
  approvedAmount : Nat
  thawed : Bool
  frozen : Bool
deriving DecidableEq, Repr

/-- `create_persistent_delegate_v1` of `delegate.rs`. Mirrors the source
order: required optional accounts, signer checks, ownership checks, key
checks, mint match, token-owner match; then for ProgrammableNonFungible
the token-record block (derivation, ownership, Sale exclusivity, field
update, master-edition check, thaw), for other standards the Sale
rejection; then the spl-token approve and, for programmable assets, the
freeze. The thaw/freeze/approve ledger effects are external
collaborators and are recorded in the outcome. -/
def create_persistent_delegate_v1 (ctx : DelegateCtx) (role : TokenDelegateRole)
    (amount : Nat) : Except TmError PersistentDelegateOutcome :=
  match ctx.tokenInfo with
  | none => .error .MissingTokenAccount
  | some tokenInfo =>
    match ctx.splTokenProgramKey with
    | none => .error .MissingSplTokenProgram
    | some splTokenProgramKey =>
      if ctx.payerIsSigner = false then .error .MissingRequiredSignature
      else if ctx.approverIsSigner = false then .error .MissingRequiredSignature
      else if ctx.metadataOwnerProg ≠ ctx.programId then .error .IncorrectOwner
      else if ctx.mintOwnerProg ≠ splTokenID then .error .IncorrectOwner
      else if tokenInfo.ownerProg ≠ splTokenID then .error .IncorrectOwner
      else if ctx.systemProgramKey ≠ systemProgramID then .error .KeyMismatch
      else if ctx.sysvarInstructionsKey ≠ sysvarInstructionsID then .error .KeyMismatch
      else if splTokenProgramKey ≠ splTokenID then .error .KeyMismatch
      else if ctx.metadata.mint ≠ ctx.mintKey then .error .MintMismatch
      else if tokenInfo.account.owner ≠ ctx.approverKey then .error .IncorrectOwner
      else if ctx.metadata.tokenStandard = some TokenStandard.ProgrammableNonFungible then
        match ctx.tokenRecordInfo with
        | none => .error .MissingTokenRecord
        | some tri =>
          if find_token_record_account ctx.mintKey ctx.approverKey ≠ tri.key then
            .error .KeyMismatch
          else if tri.ownerProg ≠ crateID then .error .IncorrectOwner
          else if tri.record.delegateRole = some TokenDelegateRole.Sale then
            .error .DelegateAlreadyExists
          else
            match ctx.masterEditionOwnerProg with
            | none => .error .MissingEditionAccount
            | some meOwnerProg =>
              if meOwnerProg ≠ crateID then .error .IncorrectOwner
              else
                .ok { tokenRecord := some { tri.record with
                        delegate := some ctx.delegateKey
                        delegateRole := some role }
                      approvedDelegate := ctx.delegateKey
                      approvedAmount := amount
                      thawed := true
                      frozen := true }
      else if role = TokenDelegateRole.Sale then .error .InvalidTokenStandard
      else
        .ok { tokenRecord := none
              approvedDelegate := ctx.delegateKey
              approvedAmount := amount
              thawed := false
              frozen := false }

/-- A metadata-scoped delegate record as serialized by
`create_pda_account` (the derivation bump is abstracted to zero). -/
structure MetadataDelegateRecord where
  bump : Nat
  mint : Pubkey
  delegate : Pubkey
deriving DecidableEq, Repr

/-- Observable effects of a successful metadata-delegate creation: the
address of the allocated record and its serialized contents. -/
structure MetadataDelegateOutcome where
  recordKey : Pubkey
  record : MetadataDelegateRecord
deriving DecidableEq, Repr

/-- `create_pda_account` of `delegate.rs`: validates the derivation of
the delegate-record address from (program id, mint, role, approver,
delegate), rejects a record whose data is already non-empty with
`DelegateAlreadyExists`, and otherwise allocates and serializes the
record. -/
def create_pda_account (programId : Pubkey) (dri : DelegateRecordInfo)
    (delegateKey mintKey approverKey : Pubkey) (role : MetadataDelegateRole) :
    Except TmError MetadataDelegateOutcome :=
  let derived := metadata_delegate_record_key programId mintKey role approverKey delegateKey
  if dri.key ≠ derived then .error .DerivedKeyInvalid
  else if dri.dataIsEmpty = false then .error .DelegateAlreadyExists
  else .ok { recordKey := derived
             record := { bump := 0, mint := mintKey, delegate := delegateKey } }

/-- `create_delegate_v1` of `delegate.rs` (metadata-scoped roles). The
update-authority assertion is modelled from the spec (the helper
`assert_update_authority_is_correct` is not among the sources): the
approver must equal the current update authority of the metadata. -/
def create_delegate_v1 (ctx : DelegateCtx) (role : MetadataDelegateRole) :
    Except TmError MetadataDelegateOutcome :=
  if ctx.payerIsSigner = false then .error .MissingRequiredSignature
  else if ctx.approverIsSigner = false then .error .MissingRequiredSignature
  else if ctx.metadataOwnerProg ≠ ctx.programId then .error .IncorrectOwner
  else if ctx.mintOwnerProg ≠ splTokenID then .error .IncorrectOwner
  else if ctx.systemProgramKey ≠ systemProgramID then .error .KeyMismatch
  else if ctx.sysvarInstructionsKey ≠ sysvarInstructionsID then .error .KeyMismatch
  else if ctx.metadata.updateAuthority ≠ ctx.approverKey then .error .UpdateAuthorityIncorrect
  else if ctx.metadata.mint ≠ ctx.mintKey then .error .MintMismatch
  else
    match ctx.delegateRecordInfo with
    | none => .error .MissingTokenAccount
    | some dri =>
      create_pda_account ctx.programId dri ctx.delegateKey ctx.mintKey ctx.approverKey role

/-- Result of the Delegate instruction: either a metadata-scoped record
creation or a token-scoped persistent delegation. -/
inductive DelegateOutcome where
  | metadataScoped (out : MetadataDelegateOutcome)
  | tokenScoped (out : PersistentDelegateOutcome)
deriving DecidableEq, Repr

/-- Arguments of the Delegate instruction (`DelegateArgs`). -/
inductive DelegateArgs where
  | CollectionV1 (authorizationData : Option AuthorizationData)
  | SaleV1 (amount : Nat) (authorizationData : Option AuthorizationData)
  | TransferV1 (amount : Nat) (authorizationData : Option AuthorizationData)
  | UpdateV1 (authorizationData : Option AuthorizationData)
  | UtilityV1 (amount : Nat) (authorizationData : Option AuthorizationData)
deriving DecidableEq, Repr

/-- The `delegate` entry point of `delegate.rs`: dispatches each
argument variant to the metadata-scoped or token-scoped handler with
the matching role. -/
def delegate (ctx : DelegateCtx) : DelegateArgs → Except TmError DelegateOutcome
  | .CollectionV1 _ =>
    (create_delegate_v1 ctx MetadataDelegateRole.Collection).map .metadataScoped
  | .SaleV1 amount _ =>
    (create_persistent_delegate_v1 ctx TokenDelegateRole.Sale amount).map .tokenScoped
  | .TransferV1 amount _ =>
    (create_persistent_delegate_v1 ctx TokenDelegateRole.Transfer amount).map .tokenScoped
  | .UpdateV1 _ =>
    (create_delegate_v1 ctx MetadataDelegateRole.Update).map .metadataScoped
  | .UtilityV1 amount _ =>
    (create_persistent_delegate_v1 ctx TokenDelegateRole.Utility amount).map .tokenScoped

/-- Authority categories of the resolver (the `AuthorityType` of the
state module, as described by the spec). -/
inductive AuthorityType where
  | Metadata
  | Holder
  | TokenDelegate
  | MetadataDelegate
  | Other
deriving DecidableEq, Repr

/-- A metadata-delegate record candidate supplied to the resolver. -/
structure MetadataDelegateMatch where
  mint : Pubkey
  role : MetadataDelegateRole
  delegate : Pubkey
deriving DecidableEq, Repr

/-- An authority-resolution request (`AuthorityRequest`): the requesting
principal, the data it may be classified against, the acceptable
delegate roles and the ordered precedence list. -/
structure AuthorityRequest where
  authority : Pubkey
  updateAuthority : Pubkey
  mint : Pubkey
  tokenAccount : Option TokenAccount
  tokenRecord : Option TokenRecord
  tokenDelegateRoles : List TokenDelegateRole
  metadataDelegateRecord : Option MetadataDelegateMatch
  metadataDelegateRoles : List MetadataDelegateRole
  precedence : List AuthorityType
deriving DecidableEq, Repr

/-- Modelled from the spec: the category tests of the AuthorityResolver
(the resolver lives in the state module, which is not among the
sources). Metadata: requester equals the update authority. Holder: the
token account is owned by the requester, belongs to the mint and holds
a positive amount. TokenDelegate: the token record names the requester
as delegate with an acceptable role. MetadataDelegate: a record exists
for the mint, an acceptable role and the requester. Other: always. -/
def satisfies_authority (req : AuthorityRequest) : AuthorityType → Bool
  | .Metadata => req.authority == req.updateAuthority
  | .Holder =>
    match req.tokenAccount with
    | some t => t.owner == req.authority && t.mint == req.mint && decide (0 < t.amount)
    | none => false
  | .TokenDelegate =>
    match req.tokenRecord with
    | some tr =>
      tr.delegate == some req.authority &&
        (match tr.delegateRole with
         | some r => req.tokenDelegateRoles.contains r
         | none => false)
    | none => false
  | .MetadataDelegate =>
    match req.metadataDelegateRecord with
    | some m =>
      m.mint == req.mint && m.delegate == req.authority &&
        req.metadataDelegateRoles.contains m.role
    | none => false
  | .Other => true

/-- Modelled from the spec: `AuthorityType::get_authority_type` returns
the first category of the ordered precedence list that the requester
satisfies and fails with `InvalidAuthorityType` when none matches. -/
def get_authority_type (req : AuthorityRequest) : Except TmError AuthorityType :=
  match req.precedence.find? (satisfies_authority req) with
  | some t => .ok t
  | none => .error .InvalidAuthorityType

/-- Accounts and deserialized data supplied to the Burn instruction
(the `Burn` context of `burn.rs`). -/
structure BurnCtx where
  programId : Pubkey
  authority : Pubkey
  authorityIsSigner : Bool
  metadataOwnerProg : Pubkey
  mintOwnerProg : Pubkey
  tokenOwnerProg : Pubkey
  editionOwnerProg : Option Pubkey
  parentEditionOwnerProg : Option Pubkey
  parentMintOwnerProg : Option Pubkey
  parentTokenOwnerProg : Option Pubkey
  editionMarkerOwnerProg : Option Pubkey
  splTokenProgramKey : Pubkey
  systemProgramKey : Pubkey
  sysvarInstructionsKey : Pubkey
  metadata : Metadata
  tokenInitialized : Bool
  token : TokenAccount
  tokenKey : Pubkey
  tokenRecord : Option TokenRecord
  mintKey : Pubkey
  mintDecimals : Nat
  mintSupply : Nat
deriving DecidableEq, Repr

/-- Ownership check of an optional account: passes when the account is
absent or owned by the expected program. -/
def opt_owned_by (o : Option Pubkey) (p : Pubkey) : Bool :=
  match o with
  | none => true
  | some q => q == p

/-- Modelled from the spec and the check list quoted in `burn.rs`: the
helper `assert_currently_holding` (not among the sources). Returns the
first failed check, or `none` when the requester currently holds the
asset. -/
def assert_currently_holding (authority : Pubkey) (metadata : Metadata)
    (mintKey : Pubkey) (token : TokenAccount) : Option TmError :=
  if token.owner ≠ authority then some .InvalidOwner
  else if token.mint ≠ mintKey then some .MintMismatch
  else if token.amount < 1 then some .NotEnoughTokens
  else if mintKey ≠ metadata.mint then some .MintMismatch
  else none

/-- Modelled from the spec: `check_token_standard` (utils, not among the
sources) infers the standard from the mint when the stored field is
absent — zero decimals and unit supply with an edition account present
mean the NonFungible family. -/
def check_token_standard (decimals supply : Nat) (editionPresent : Bool) :
    TokenStandard :=
  if decimals = 0 ∧ supply = 1 ∧ editionPresent = true then TokenStandard.NonFungible
  else TokenStandard.Fungible

/-- Whether a standard belongs to the NonFungible family gated by the
amount and edition checks of `burn_v1`. -/
def nonfungible_family (ts : TokenStandard) : Bool :=
  ts == TokenStandard.NonFungibleEdition || ts == TokenStandard.NonFungible ||
    ts == TokenStandard.ProgrammableNonFungible

/-- Observable effects of a successful burn: the thaw of the balance
account, which kind of supply reduction happened, and whether the
token record was closed. -/
structure BurnOutcome where
  thawed : Bool
  nonFungibleBurned : Bool
  fungibleBurnAmount : Option Nat
  tokenRecordClosed : Bool
deriving DecidableEq, Repr

/-- The authority request built by `burn_v1`: precedence
`[Holder, TokenDelegate]`, acceptable token-delegate roles `[Utility]`,
remaining fields defaulted. -/
def burn_authority_request (ctx : BurnCtx) : AuthorityRequest :=
  { authority := ctx.authority
    updateAuthority := ctx.metadata.updateAuthority
    mint := ctx.mintKey
    tokenAccount := some ctx.token
    tokenRecord := ctx.tokenRecord
    tokenDelegateRoles := [TokenDelegateRole.Utility]
    metadataDelegateRecord := none
    metadataDelegateRoles := []
    precedence := [AuthorityType.Holder, AuthorityType.TokenDelegate] }

/-- The per-standard dispatch at the end of `burn_v1`. The actual
supply/balance mutations (`burn_nonfungible`, `burn_nonfungible_edition`,
`burn_fungible`), the `thaw` and `close_program_account` are external or
missing collaborators modelled from the spec as succeeding ledger
effects recorded in the outcome. The ProgrammableNonFungible arm is
from the source: a missing token record fails with `MissingTokenRecord`,
a record whose state is not `Unlocked` fails with `IncorrectTokenState`,
otherwise the asset is thawed, burned and the token record closed. -/
def burn_checked (ctx : BurnCtx) (amount : Nat) (tokenStandard : TokenStandard) :
    Except TmError BurnOutcome :=
  match tokenStandard with
  | TokenStandard.NonFungible =>
    .ok { thawed := false, nonFungibleBurned := true, fungibleBurnAmount := none,
          tokenRecordClosed := false }
  | TokenStandard.NonFungibleEdition =>
    .ok { thawed := false, nonFungibleBurned := true, fungibleBurnAmount := none,
          tokenRecordClosed := false }
  | TokenStandard.ProgrammableNonFungible =>
    match ctx.tokenRecord with
    | none => .error .MissingTokenRecord
    | some tr =>
      if tr.state ≠ TokenState.Unlocked then .error .IncorrectTokenState
      else
        .ok { thawed := true, nonFungibleBurned := true, fungibleBurnAmount := none,
              tokenRecordClosed := true }
  | TokenStandard.Fungible =>
    .ok { thawed := false, nonFungibleBurned := false, fungibleBurnAmount := some amount,
          tokenRecordClosed := false }
  | TokenStandard.FungibleAsset =>
    .ok { thawed := false, nonFungibleBurned := false, fungibleBurnAmount := some amount,
          tokenRecordClosed := false }

/-- The stage of `burn_v1` following authority validation: resolve the
token standard (stored field first, inference otherwise), gate the
NonFungible family on amount one and a present edition account, then
dispatch per standard. -/
def burn_post_auth (ctx : BurnCtx) (amount : Nat) : Except TmError BurnOutcome :=
  let tokenStandard :=
    match ctx.metadata.tokenStandard with
    | some ts => ts
    | none => check_token_standard ctx.mintDecimals ctx.mintSupply ctx.editionOwnerProg.isSome
  if nonfungible_family tokenStandard && amount != 1 then .error .InvalidAmount
  else if nonfungible_family tokenStandard && ctx.editionOwnerProg.isNone then
    .error .MissingEdition
  else burn_checked ctx amount tokenStandard

/-- `burn_v1` of `burn.rs`: signer check, ownership checks on required
and optional accounts, program-id checks, token-account initialization,
authority resolution with precedence `[Holder, TokenDelegate]` and
acceptable roles `[Utility]`, the per-category validation (holding
checks for Holder, mint/balance checks for TokenDelegate, rejection of
every other category with `InvalidAuthorityType`), then the
standard-resolution and burn stage. -/
def burn_v1 (ctx : BurnCtx) (amount : Nat) : Except TmError BurnOutcome :=
  if ctx.authorityIsSigner = false then .error .MissingRequiredSignature
  else if ctx.metadataOwnerProg ≠ ctx.programId then .error .IncorrectOwner
  else if ctx.mintOwnerProg ≠ splTokenID then .error .IncorrectOwner
  else if ctx.tokenOwnerProg ≠ splTokenID then .error .IncorrectOwner
  else if opt_owned_by ctx.editionOwnerProg ctx.programId = false then .error .IncorrectOwner
  else if opt_owned_by ctx.parentEditionOwnerProg ctx.programId = false then
    .error .IncorrectOwner
  else if opt_owned_by ctx.parentMintOwnerProg splTokenID = false then .error .IncorrectOwner
  else if opt_owned_by ctx.parentTokenOwnerProg splTokenID = false then .error .IncorrectOwner
  else if opt_owned_by ctx.editionMarkerOwnerProg ctx.programId = false then
    .error .IncorrectOwner
  else if ctx.splTokenProgramKey ≠ splTokenID then .error .IncorrectProgramId
  else if ctx.systemProgramKey ≠ systemProgramID then .error .IncorrectProgramId
  else if ctx.sysvarInstructionsKey ≠ sysvarInstructionsID then .error .IncorrectProgramId
  else if ctx.tokenInitialized = false then .error .UninitializedAccount
  else
    match get_authority_type (burn_authority_request ctx) with
    | .error e => .error e
    | .ok authorityType =>
      let authCheck : Option TmError :=
        match authorityType with
        | AuthorityType.Holder =>
          assert_currently_holding ctx.authority ctx.metadata ctx.mintKey ctx.token
        | AuthorityType.TokenDelegate =>
          if ctx.token.mint ≠ ctx.mintKey then some .MintMismatch
          else if ctx.token.amount < amount then some .InsufficientTokenBalance
          else if ctx.token.mint ≠ ctx.metadata.mint then some .MintMismatch
          else none
        | _ => some .InvalidAuthorityType
      match authCheck with
      | some e => .error e
      | none => burn_post_auth ctx amount

/-- The coupling invariant claimed for token records: the state is
Locked or Listed exactly when a delegate is set, and Unlocked exactly
when no delegate is set. -/
def token_record_coupling (tr : TokenRecord) : Prop :=
  ((tr.state = TokenState.Locked ∨ tr.state = TokenState.Listed) ↔
    tr.delegate.isSome = true) ∧
  (tr.state = TokenState.Unlocked ↔ tr.delegate = none)

instance (tr : TokenRecord) : Decidable (token_record_coupling tr) := by
  unfold token_record_coupling; infer_instance

/-- Structural-validation hypotheses of `create_persistent_delegate_v1`
up to and including the token-owner check. -/
def persistent_delegate_checks_ok (ctx : DelegateCtx) (tokenInfo : TokenInfo)
    (splKey : Pubkey) : Prop :=
  ctx.tokenInfo = some tokenInfo ∧
  ctx.splTokenProgramKey = some splKey ∧
  ctx.payerIsSigner = true ∧
  ctx.approverIsSigner = true ∧
  ctx.metadataOwnerProg = ctx.programId ∧
  ctx.mintOwnerProg = splTokenID ∧
  tokenInfo.ownerProg = splTokenID ∧
  ctx.systemProgramKey = systemProgramID ∧
  ctx.sysvarInstructionsKey = sysvarInstructionsID ∧
  splKey = splTokenID ∧
  ctx.metadata.mint = ctx.mintKey ∧
  tokenInfo.account.owner = ctx.approverKey

/-- Hypotheses of the ProgrammableNonFungible block of
`create_persistent_delegate_v1`: the standard, a well-derived and
program-owned token record, and a program-owned master edition. -/
def pnft_token_record_ok (ctx : DelegateCtx) (tri : TokenRecordInfo) : Prop :=
  ctx.metadata.tokenStandard = some TokenStandard.ProgrammableNonFungible ∧
  ctx.tokenRecordInfo = some tri ∧
  find_token_record_account ctx.mintKey ctx.approverKey = tri.key ∧
  tri.ownerProg = crateID ∧
  ctx.masterEditionOwnerProg = some crateID

/-- Structural-validation hypotheses of `burn_v1` up to authority
resolution. -/
def burn_structural_ok (ctx : BurnCtx) : Prop :=
  ctx.authorityIsSigner = true ∧
  ctx.metadataOwnerProg = ctx.programId ∧
  ctx.mintOwnerProg = splTokenID ∧
  ctx.tokenOwnerProg = splTokenID ∧
  opt_owned_by ctx.editionOwnerProg ctx.programId = true ∧
  opt_owned_by ctx.parentEditionOwnerProg ctx.programId = true ∧
  opt_owned_by ctx.parentMintOwnerProg splTokenID = true ∧
  opt_owned_by ctx.parentTokenOwnerProg splTokenID = true ∧
  opt_owned_by ctx.editionMarkerOwnerProg ctx.programId = true ∧
  ctx.splTokenProgramKey = splTokenID ∧
  ctx.systemProgramKey = systemProgramID ∧
  ctx.sysvarInstructionsKey = sysvarInstructionsID ∧
  ctx.tokenInitialized = true

/-- Hypotheses making the requester the current holder of the asset, so
that authority resolution classifies it as Holder and the holding
checks pass. -/
def burn_holder_ok (ctx : BurnCtx) : Prop :=
  ctx.token.owner = ctx.authority ∧
  ctx.token.mint = ctx.mintKey ∧
  0 < ctx.token.amount ∧
  ctx.mintKey = ctx.metadata.mint

instance (ctx : DelegateCtx) (tokenInfo : TokenInfo) (splKey : Pubkey) :
    Decidable (persistent_delegate_checks_ok ctx tokenInfo splKey) := by
  unfold persistent_delegate_checks_ok; infer_instance

instance (ctx : DelegateCtx) (tri : TokenRecordInfo) :
    Decidable (pnft_token_record_ok ctx tri) := by
  unfold pnft_token_record_ok; infer_instance

instance (ctx : BurnCtx) : Decidable (burn_structural_ok ctx) := by
  unfold burn_structural_ok; infer_instance

instance (ctx : BurnCtx) : Decidable (burn_holder_ok ctx) := by
  unfold burn_holder_ok; infer_instance

/-- Display data with empty fields, for concrete witnesses. -/
def emptyData : Data :=
  { name := "", symbol := "", uri := "", sellerFeeBasisPoints := 0, creators := none }

/-- Concrete ProgrammableNonFungible metadata, update authority 12,
mint 20. -/
def pnftMetadata : Metadata :=
  { updateAuthority := 12
    mint := 20
    data := emptyData
    primarySaleHappened := false
    isMutable := true
    tokenStandard := some TokenStandard.ProgrammableNonFungible
    collection := none
    uses := none
    collectionDetails := none
    programmableConfig := none }

/-- A token record with no delegate in the Unlocked state. -/
def unlockedRecord : TokenRecord :=
  { bump := 0, state := TokenState.Unlocked, delegate := none, delegateRole := none }

/-- A token record held by a Sale delegate in the Listed state. -/
def listedRecord : TokenRecord :=
  { bump := 0, state := TokenState.Listed, delegate := some 11,
    delegateRole := some TokenDelegateRole.Sale }

/-- A token record held by a Utility delegate in the Locked state. -/
def lockedUtilityRecord : TokenRecord :=
  { bump := 0, state := TokenState.Locked, delegate := some 11,
    delegateRole := some TokenDelegateRole.Utility }

/-- Concrete token balance account of mint 20 held by principal 12. -/
def heldTokenAccount : TokenAccount :=
  { mint := 20, owner := 12, amount := 1, delegate := none, delegatedAmount := 0 }

/-- Concrete supplied token account owned by the spl-token program. -/
def heldTokenInfo : TokenInfo :=
  { ownerProg := splTokenID, account := heldTokenAccount }

/-- Concrete well-derived token-record account in the Unlocked state. -/
def triUnlocked : TokenRecordInfo :=
  { key := find_token_record_account 20 12, ownerProg := crateID, record := unlockedRecord }

/-- Concrete token-record account carrying a Sale delegate. -/
def triSale : TokenRecordInfo :=
  { key := find_token_record_account 20 12, ownerProg := crateID, record := listedRecord }

/-- Concrete token-record account carrying a Utility delegate. -/
def triUtility : TokenRecordInfo :=
  { key := find_token_record_account 20 12, ownerProg := crateID
    record := lockedUtilityRecord }

/-- The derived address of the Collection record for (mint 20,
approver 12, delegate 11). -/
def collectionRecordKey : Pubkey :=
  metadata_delegate_record_key crateID 20 MetadataDelegateRole.Collection 12 11

/-- An empty, well-derived Collection delegate-record account. -/
def driEmpty : DelegateRecordInfo :=
  { key := collectionRecordKey, dataIsEmpty := true }

/-- The same Collection delegate-record account, already allocated. -/
def driTaken : DelegateRecordInfo :=
  { key := collectionRecordKey, dataIsEmpty := false }

/-- A well-derived Collection record for the foreign approver 13. -/
def driForeign : DelegateRecordInfo :=
  { key := metadata_delegate_record_key crateID 20 MetadataDelegateRole.Collection 13 11
    dataIsEmpty := true }

/-- Plain NonFungible metadata otherwise identical to `pnftMetadata`. -/
def nftMetadata : Metadata :=
  { pnftMetadata with tokenStandard := some TokenStandard.NonFungible }

/-- Concrete Delegate context: holder 12 delegates over mint 20 to
principal 11 on a ProgrammableNonFungible asset whose token record is
Unlocked with no delegate. -/
def dCtx : DelegateCtx :=
  { programId := crateID
    delegateKey := 11
    approverKey := 12
    payerIsSigner := true
    approverIsSigner := true
    metadataOwnerProg := crateID
    mintOwnerProg := splTokenID
    mintKey := 20
    systemProgramKey := systemProgramID
    sysvarInstructionsKey := sysvarInstructionsID
    metadata := pnftMetadata
    tokenInfo := some heldTokenInfo
    splTokenProgramKey := some splTokenID
    tokenRecordInfo := some triUnlocked
    masterEditionOwnerProg := some crateID
    delegateRecordInfo := none }

/-- Delegate context whose token record already carries a Sale
delegate. -/
def dCtxSale : DelegateCtx := { dCtx with tokenRecordInfo := some triSale }

/-- Delegate context whose token record carries a Utility delegate. -/
def dCtxUtility : DelegateCtx := { dCtx with tokenRecordInfo := some triUtility }

/-- Delegate context over a plain NonFungible asset. -/
def dCtxNonProgrammable : DelegateCtx := { dCtx with metadata := nftMetadata }

/-- Delegate context for a metadata-scoped Collection delegate with an
empty, well-derived record account. -/
def dCtxCollection : DelegateCtx := { dCtx with delegateRecordInfo := some driEmpty }

/-- Same metadata-scoped context with the record account already
allocated. -/
def dCtxCollectionTaken : DelegateCtx :=
  { dCtx with delegateRecordInfo := some driTaken }

/-- Same metadata-scoped context with an approver who is not the update
authority (and a matching derivation for that approver). -/
def dCtxWrongAuthority : DelegateCtx :=
  { dCtx with approverKey := 13, delegateRecordInfo := some driForeign }

/-- Concrete Burn context: holder 12 burns one ProgrammableNonFungible
token of mint 20, edition supplied, token record Unlocked. -/
def bCtx : BurnCtx :=
  { programId := crateID
    authority := 12
    authorityIsSigner := true
    metadataOwnerProg := crateID
    mintOwnerProg := splTokenID
    tokenOwnerProg := splTokenID
    editionOwnerProg := some crateID
    parentEditionOwnerProg := none
    parentMintOwnerProg := none
    parentTokenOwnerProg := none
    editionMarkerOwnerProg := none
    splTokenProgramKey := splTokenID
    systemProgramKey := systemProgramID
    sysvarInstructionsKey := sysvarInstructionsID
    metadata := pnftMetadata
    tokenInitialized := true
    token := { mint := 20, owner := 12, amount := 1, delegate := none,
               delegatedAmount := 0 }
    tokenKey := 30
    tokenRecord := some unlockedRecord
    mintKey := 20
    mintDecimals := 0
    mintSupply := 1 }

/-- Burn context whose token record is in the Listed state. -/
def bCtxListed : BurnCtx := { bCtx with tokenRecord := some listedRecord }

/-- Burn context with no token record supplied. -/
def bCtxNoRecord : BurnCtx := { bCtx with tokenRecord := none }

/-- Burn context whose requester 99 is neither the holder nor a token
delegate. -/
def bCtxStranger : BurnCtx := { bCtx with authority := 99 }

/-- Burn context without an edition account. -/
def bCtxNoEdition : BurnCtx := { bCtx with editionOwnerProg := none }

/-- The outcome of a successful ProgrammableNonFungible burn: thawed,
burned, token record closed. -/
def pnftBurnOutcome : BurnOutcome :=
  { thawed := true, nonFungibleBurned := true, fungibleBurnAmount := none,
    tokenRecordClosed := true }

/-- The token record produced by creating a Transfer delegate for
principal 11 on `unlockedRecord`: delegate and role are set, the state
is left Unlocked. -/
def transferredRecord : TokenRecord :=
  { bump := 0, state := TokenState.Unlocked, delegate := some 11,
    delegateRole := some TokenDelegateRole.Transfer }

/-- C9: an Update whose arguments are the default `UpdateArgs::V1` value
(every toggle `None`, every optional field `None`) leaves the stored
asset metadata unchanged. -/
theorem update_default_args_noop (md : Metadata) :
    update_v1_apply md UpdateArgsV1.default = md := rfl

/-- C10: each of the four toggle conversions `to_option` maps `Set v` to
`some v` and `Clear` to the empty value, while on the `None` variant it
panics (modelled as returning no value at all). -/
theorem toggle_to_option_partial :
    (∀ c : Collection, CollectionToggle.to_option (.Set c) = some (some c)) ∧
    CollectionToggle.to_option .Clear = some none ∧
    CollectionToggle.to_option .None = none ∧
    (∀ u : Uses, UsesToggle.to_option (.Set u) = some (some u)) ∧
    UsesToggle.to_option .Clear = some none ∧
    UsesToggle.to_option .None = none ∧
    (∀ d : CollectionDetails,
      CollectionDetailsToggle.to_option (.Set d) = some (some d)) ∧
    CollectionDetailsToggle.to_option .Clear = some none ∧
    CollectionDetailsToggle.to_option .None = none ∧
    (∀ p : ProgrammableConfig,
      ProgrammableConfigToggle.to_option (.Set p) = some (some p)) ∧
    ProgrammableConfigToggle.to_option .Clear = some none ∧
    ProgrammableConfigToggle.to_option .None = none := by
  refine ⟨fun c => rfl, rfl, rfl, fun u => rfl, rfl, rfl,
    fun d => rfl, rfl, rfl, fun p => rfl, rfl, rfl⟩

/-- Helper: under the structural and ProgrammableNonFungible hypotheses
and with no Sale delegate in place, persistent-delegate creation
succeeds, setting delegate and role, recording the approve and the
thaw/freeze, and leaving the state field of the record unchanged. -/
theorem create_persistent_delegate_v1_pnft_ok (ctx : DelegateCtx)
    (role : TokenDelegateRole) (amount : Nat) (tokenInfo : TokenInfo)
    (splKey : Pubkey) (tri : TokenRecordInfo)
    (hchecks : persistent_delegate_checks_ok ctx tokenInfo splKey)
    (hpnft : pnft_token_record_ok ctx tri)
    (hrole : tri.record.delegateRole ≠ some TokenDelegateRole.Sale) :
    create_persistent_delegate_v1 ctx role amount =
      .ok { tokenRecord := some { tri.record with
              delegate := some ctx.delegateKey
              delegateRole := some role }
            approvedDelegate := ctx.delegateKey
            approvedAmount := amount
            thawed := true
            frozen := true } := by
  obtain ⟨h1, h2, h3, h4, h5, h6, h7, h8, h9, h10, h11, h12⟩ := hchecks
  obtain ⟨p1, p2, p3, p4, p5⟩ := hpnft
  subst h10
  simp [create_persistent_delegate_v1, h1, h2, h3, h4, h5, h6, h7, h8, h9, h11,
    h12, p1, p2, p3, p4, p5, hrole]

/-- Helper: under the same hypotheses but with a Sale delegate already
recorded, persistent-delegate creation fails with
`DelegateAlreadyExists` for every requested role. -/
theorem create_persistent_delegate_v1_sale_err (ctx : DelegateCtx)
    (role : TokenDelegateRole) (amount : Nat) (tokenInfo : TokenInfo)
    (splKey : Pubkey) (tri : TokenRecordInfo)
    (hchecks : persistent_delegate_checks_ok ctx tokenInfo splKey)
    (hpnft : pnft_token_record_ok ctx tri)
    (hrole : tri.record.delegateRole = some TokenDelegateRole.Sale) :
    create_persistent_delegate_v1 ctx role amount = .error .DelegateAlreadyExists := by
  obtain ⟨h1, h2, h3, h4, h5, h6, h7, h8, h9, h10, h11, h12⟩ := hchecks
  obtain ⟨p1, p2, p3, p4, p5⟩ := hpnft
  subst h10
  simp [create_persistent_delegate_v1, h1, h2, h3, h4, h5, h6, h7, h8, h9, h11,
    h12, p1, p2, p3, p4, p5, hrole]

/-- C1 counterexample: at a concrete, fully valid creation of a Transfer
delegate on a ProgrammableNonFungible asset whose token record is
Unlocked, the operation succeeds but the resulting record state is not
Locked — the claimed Unlocked-to-Locked transition does not happen. -/
theorem persistent_delegate_no_state_transition_cex :
    ¬ (∀ out : PersistentDelegateOutcome,
        create_persistent_delegate_v1 dCtx TokenDelegateRole.Transfer 1 = .ok out →
        out.tokenRecord.map TokenRecord.state = some TokenState.Locked) := by
  intro h
  have hout := h { tokenRecord := some transferredRecord
                   approvedDelegate := 11
                   approvedAmount := 1
                   thawed := true
                   frozen := true } rfl
  exact absurd hout (by decide)

/-- C1 (amended): a successful creation of a token-scoped persistent
delegate on a ProgrammableNonFungible asset sets the token record
delegate to the delegate principal and the role to the requested role,
and records an spl-token approve for the given amount (with a thaw and
re-freeze of the balance account), but it leaves the state field of the
TokenRecord unchanged: no Unlocked-to-Locked (or Listed) transition is
performed. -/
theorem persistent_delegate_creation_effects (ctx : DelegateCtx)
    (role : TokenDelegateRole) (amount : Nat) (tokenInfo : TokenInfo)
    (splKey : Pubkey) (tri : TokenRecordInfo)
    (hchecks : persistent_delegate_checks_ok ctx tokenInfo splKey)
    (hpnft : pnft_token_record_ok ctx tri)
    (hrole : tri.record.delegateRole ≠ some TokenDelegateRole.Sale) :
    create_persistent_delegate_v1 ctx role amount =
      .ok { tokenRecord := some { tri.record with
              delegate := some ctx.delegateKey
              delegateRole := some role }
            approvedDelegate := ctx.delegateKey
            approvedAmount := amount
            thawed := true
            frozen := true } :=
  create_persistent_delegate_v1_pnft_ok ctx role amount tokenInfo splKey tri
    hchecks hpnft hrole

/-- C1 witness: the amended theorem evaluated at the concrete context. -/
theorem persistent_delegate_creation_effects_witness :
    create_persistent_delegate_v1 dCtx TokenDelegateRole.Transfer 1 =
      .ok { tokenRecord := some transferredRecord
            approvedDelegate := 11
            approvedAmount := 1
            thawed := true
            frozen := true } :=
  persistent_delegate_creation_effects dCtx TokenDelegateRole.Transfer 1
    heldTokenInfo splTokenID triUnlocked (by decide) (by decide) (by decide)

/-- C4: on a ProgrammableNonFungible asset, creating a persistent
delegate of any role while the current delegate role is Sale fails with
`DelegateAlreadyExists`; while the current role is any non-Sale role the
creation succeeds and replaces the stored delegate and role. -/
theorem sale_delegate_exclusivity (ctx : DelegateCtx)
    (role : TokenDelegateRole) (amount : Nat) (tokenInfo : TokenInfo)
    (splKey : Pubkey) (tri : TokenRecordInfo)
    (hchecks : persistent_delegate_checks_ok ctx tokenInfo splKey)
    (hpnft : pnft_token_record_ok ctx tri) :
    (tri.record.delegateRole = some TokenDelegateRole.Sale →
      create_persistent_delegate_v1 ctx role amount = .error .DelegateAlreadyExists) ∧
    (∀ r : TokenDelegateRole, tri.record.delegateRole = some r →
      r ≠ TokenDelegateRole.Sale →
      create_persistent_delegate_v1 ctx role amount =
        .ok { tokenRecord := some { tri.record with
                delegate := some ctx.delegateKey
                delegateRole := some role }
              approvedDelegate := ctx.delegateKey
              approvedAmount := amount
              thawed := true
              frozen := true }) := by
  constructor
  · intro hrole
    exact create_persistent_delegate_v1_sale_err ctx role amount tokenInfo splKey tri
      hchecks hpnft hrole
  · intro r hr hne
    refine create_persistent_delegate_v1_pnft_ok ctx role amount tokenInfo splKey tri
      hchecks hpnft ?_
    rw [hr]
    simp [hne]

/-- C4 witness: with a Sale delegate in place a Transfer delegation is
rejected; with a Utility delegate in place it succeeds and replaces the
delegate and role. -/
theorem sale_delegate_exclusivity_witness :
    create_persistent_delegate_v1 dCtxSale TokenDelegateRole.Transfer 1 =
      .error .DelegateAlreadyExists ∧
    create_persistent_delegate_v1 dCtxUtility TokenDelegateRole.Transfer 1 =
      .ok { tokenRecord := some { bump := 0, state := TokenState.Locked, delegate := some 11, delegateRole := some TokenDelegateRole.Transfer }
            approvedDelegate := 11
            approvedAmount := 1
            thawed := true
            frozen := true } := by
  constructor
  · exact (sale_delegate_exclusivity dCtxSale TokenDelegateRole.Transfer 1
      heldTokenInfo splTokenID triSale (by decide) (by decide)).1 (by decide)
  · exact (sale_delegate_exclusivity dCtxUtility TokenDelegateRole.Transfer 1
      heldTokenInfo splTokenID triUtility (by decide) (by decide)).2
      TokenDelegateRole.Utility (by decide) (by decide)

/-- C7: when the token standard of the asset is not
ProgrammableNonFungible, creating a Sale delegate fails with
`InvalidTokenStandard`. -/
theorem sale_delegate_requires_pnft (ctx : DelegateCtx) (amount : Nat)
    (tokenInfo : TokenInfo) (splKey : Pubkey)
    (hchecks : persistent_delegate_checks_ok ctx tokenInfo splKey)
    (hts : ctx.metadata.tokenStandard ≠ some TokenStandard.ProgrammableNonFungible) :
    create_persistent_delegate_v1 ctx TokenDelegateRole.Sale amount =
      .error .InvalidTokenStandard := by
  obtain ⟨h1, h2, h3, h4, h5, h6, h7, h8, h9, h10, h11, h12⟩ := hchecks
  subst h10
  simp [create_persistent_delegate_v1, h1, h2, h3, h4, h5, h6, h7, h8, h9, h11,
    h12, hts]

/-- C7 witness: a Sale delegation on a plain NonFungible asset is
rejected with `InvalidTokenStandard`. -/
theorem sale_delegate_requires_pnft_witness :
    create_persistent_delegate_v1 dCtxNonProgrammable TokenDelegateRole.Sale 1 =
      .error .InvalidTokenStandard :=
  sale_delegate_requires_pnft dCtxNonProgrammable 1 heldTokenInfo splTokenID
    (by decide) (by decide)

/-- Helper: the authority request built by `burn_v1` resolves to Holder
whenever the requester currently holds the token. -/
theorem get_authority_type_holder (ctx : BurnCtx) (hh : burn_holder_ok ctx) :
    get_authority_type (burn_authority_request ctx) = .ok AuthorityType.Holder := by
  obtain ⟨h1, h2, h3, h4⟩ := hh
  have hne : ctx.token.amount ≠ 0 := Nat.pos_iff_ne_zero.mp h3
  simp [get_authority_type, burn_authority_request, List.find?, satisfies_authority,
    h1, h2, h3]

/-- Helper: under the structural and holder hypotheses, `burn_v1`
reduces to its standard-resolution and burn stage. -/
theorem burn_v1_holder_stage (ctx : BurnCtx) (amount : Nat)
    (hs : burn_structural_ok ctx) (hh : burn_holder_ok ctx) :
    burn_v1 ctx amount = burn_post_auth ctx amount := by
  obtain ⟨s1, s2, s3, s4, s5, s6, s7, s8, s9, s10, s11, s12, s13⟩ := hs
  obtain ⟨h1, h2, h3, h4⟩ := hh
  have hne : ¬ ctx.token.amount < 1 := by omega
  rw [burn_v1, get_authority_type_holder ctx ⟨h1, h2, h3, h4⟩]
  simp [s1, s2, s3, s4, s5, s6, s7, s8, s9, s10, s11, s12, s13,
    assert_currently_holding, h1, h2, h4, hne]

/-- C2 counterexample: at a concrete, fully valid Transfer delegation on
a record satisfying the claimed state/delegate equivalence in the
Unlocked state, the operation succeeds and produces a record with a
delegate set but state still Unlocked — the equivalence is not preserved
by persistent-delegate creation. -/
theorem token_record_coupling_not_preserved_cex :
    token_record_coupling unlockedRecord ∧
    create_persistent_delegate_v1 dCtx TokenDelegateRole.Transfer 1 =
      .ok { tokenRecord := some transferredRecord
            approvedDelegate := 11
            approvedAmount := 1
            thawed := true
            frozen := true } ∧
    ¬ token_record_coupling transferredRecord :=
  ⟨by decide, rfl, by decide⟩

/-- C2 (amended): the state/delegate equivalence is not an invariant of
persistent-delegate creation: every successful creation on a record in
the Unlocked state yields a record whose delegate is set while the state
is still Unlocked, violating the equivalence. Burn preserves the
equivalence trivially: a successful ProgrammableNonFungible burn closes
the TokenRecord, so no record remains. -/
theorem token_record_coupling_amended :
    (∀ (ctx : DelegateCtx) (role : TokenDelegateRole) (amount : Nat)
       (tokenInfo : TokenInfo) (splKey : Pubkey) (tri : TokenRecordInfo),
      persistent_delegate_checks_ok ctx tokenInfo splKey →
      pnft_token_record_ok ctx tri →
      tri.record.delegateRole ≠ some TokenDelegateRole.Sale →
      tri.record.state = TokenState.Unlocked →
      ∀ out : PersistentDelegateOutcome,
        create_persistent_delegate_v1 ctx role amount = .ok out →
        ∃ tr : TokenRecord, out.tokenRecord = some tr ∧
          tr.delegate = some ctx.delegateKey ∧
          tr.state = TokenState.Unlocked ∧
          ¬ token_record_coupling tr) ∧
    (∀ (ctx : BurnCtx) (tr : TokenRecord),
      burn_structural_ok ctx → burn_holder_ok ctx →
      ctx.metadata.tokenStandard = some TokenStandard.ProgrammableNonFungible →
      ctx.editionOwnerProg.isSome = true →
      ctx.tokenRecord = some tr → tr.state = TokenState.Unlocked →
      ∀ out : BurnOutcome, burn_v1 ctx 1 = .ok out →
        out.tokenRecordClosed = true) := by
  constructor
  · intro ctx role amount tokenInfo splKey tri hchecks hpnft hrole hstate out hok
    rw [create_persistent_delegate_v1_pnft_ok ctx role amount tokenInfo splKey tri
      hchecks hpnft hrole] at hok
    cases hok
    refine ⟨_, rfl, rfl, hstate, ?_⟩
    intro hcoup
    have := hcoup.2.mp hstate
    simp at this
  · intro ctx tr hs hh hts hed htr hstate out hok
    rw [burn_v1_holder_stage ctx 1 hs hh] at hok
    simp [burn_post_auth, burn_checked, hts, nonfungible_family, htr, hstate,
      Option.isNone_iff_eq_none] at hok
    have hne : ctx.editionOwnerProg ≠ none := by
      intro hnone
      rw [hnone] at hed
      simp at hed
    rw [if_neg hne] at hok
    cases hok
    rfl

/-- C2 witness: the amended theorem evaluated at the concrete delegation
and burn contexts. -/
theorem token_record_coupling_amended_witness :
    (∃ tr : TokenRecord,
      (some transferredRecord : Option TokenRecord) = some tr ∧
      tr.delegate = some (11 : Pubkey) ∧ tr.state = TokenState.Unlocked ∧
      ¬ token_record_coupling tr) ∧
    ({ thawed := true, nonFungibleBurned := true, fungibleBurnAmount := none,
       tokenRecordClosed := true } : BurnOutcome).tokenRecordClosed = true := by
  constructor
  · exact token_record_coupling_amended.1 dCtx TokenDelegateRole.Transfer 1
      heldTokenInfo splTokenID triUnlocked (by decide) (by decide) (by decide)
      (by decide) _ rfl
  · exact token_record_coupling_amended.2 bCtx unlockedRecord (by decide)
      (by decide) rfl rfl rfl rfl _ rfl

/-- C3: on a ProgrammableNonFungible burn by the current holder with
amount one and a supplied edition account: a token record whose state is
not Unlocked fails with `IncorrectTokenState`; a record in the Unlocked
state burns successfully and the token record account is closed; a
missing token record fails with `MissingTokenRecord`. In this pure
embedding an error result carries no effects, so the failing cases
perform no mutation. -/
theorem burn_pnft_state_cases (ctx : BurnCtx)
    (hs : burn_structural_ok ctx) (hh : burn_holder_ok ctx)
    (hts : ctx.metadata.tokenStandard = some TokenStandard.ProgrammableNonFungible)
    (hed : ctx.editionOwnerProg.isSome = true) :
    (∀ tr : TokenRecord, ctx.tokenRecord = some tr →
      tr.state ≠ TokenState.Unlocked →
      burn_v1 ctx 1 = .error .IncorrectTokenState) ∧
    (∀ tr : TokenRecord, ctx.tokenRecord = some tr →
      tr.state = TokenState.Unlocked →
      burn_v1 ctx 1 = .ok pnftBurnOutcome) ∧
    (ctx.tokenRecord = none → burn_v1 ctx 1 = .error .MissingTokenRecord) := by
  have hne : ctx.editionOwnerProg ≠ none := by
    intro hnone
    rw [hnone] at hed
    simp at hed
  have hstage := burn_v1_holder_stage ctx 1 hs hh
  refine ⟨?_, ?_, ?_⟩
  · intro tr htr hstate
    rw [hstage]
    simp [burn_post_auth, burn_checked, hts, nonfungible_family, htr, hstate,
      Option.isNone_iff_eq_none, hne]
  · intro tr htr hstate
    rw [hstage]
    simp [burn_post_auth, burn_checked, hts, nonfungible_family, htr, hstate,
      Option.isNone_iff_eq_none, hne, pnftBurnOutcome]
  · intro htr
    rw [hstage]
    simp [burn_post_auth, burn_checked, hts, nonfungible_family, htr,
      Option.isNone_iff_eq_none, hne]

/-- C3 witness: the three cases at concrete burn contexts. -/
theorem burn_pnft_state_cases_witness :
    burn_v1 bCtxListed 1 = .error .IncorrectTokenState ∧
    burn_v1 bCtx 1 = .ok pnftBurnOutcome ∧
    burn_v1 bCtxNoRecord 1 = .error .MissingTokenRecord := by
  refine ⟨?_, ?_, ?_⟩
  · exact (burn_pnft_state_cases bCtxListed (by decide) (by decide) rfl rfl).1
      listedRecord rfl (by decide)
  · exact (burn_pnft_state_cases bCtx (by decide) (by decide) rfl rfl).2.1
      unlockedRecord rfl rfl
  · exact (burn_pnft_state_cases bCtxNoRecord (by decide) (by decide) rfl rfl).2.2 rfl

/-- C5: `burn_v1` classifies the requester with the ordered precedence
list `[Holder, TokenDelegate]` and acceptable token-delegate roles
`[Utility]`; when the requester satisfies neither category the burn
fails with `InvalidAuthorityType`. -/
theorem burn_authority_resolution (ctx : BurnCtx) (amount : Nat)
    (hs : burn_structural_ok ctx)
    (hnoH : satisfies_authority (burn_authority_request ctx) AuthorityType.Holder = false)
    (hnoD : satisfies_authority (burn_authority_request ctx) AuthorityType.TokenDelegate = false) :
    (burn_authority_request ctx).precedence =
      [AuthorityType.Holder, AuthorityType.TokenDelegate] ∧
    (burn_authority_request ctx).tokenDelegateRoles = [TokenDelegateRole.Utility] ∧
    burn_v1 ctx amount = .error .InvalidAuthorityType := by
  obtain ⟨s1, s2, s3, s4, s5, s6, s7, s8, s9, s10, s11, s12, s13⟩ := hs
  have hfind : List.find? (satisfies_authority (burn_authority_request ctx))
      [AuthorityType.Holder, AuthorityType.TokenDelegate] = none := by
    simp [List.find?, hnoH, hnoD]
  have hres : get_authority_type (burn_authority_request ctx) =
      .error .InvalidAuthorityType := by
    have hpre : (burn_authority_request ctx).precedence =
        [AuthorityType.Holder, AuthorityType.TokenDelegate] := rfl
    rw [get_authority_type, hpre, hfind]
  refine ⟨rfl, rfl, ?_⟩
  rw [burn_v1, hres]
  simp [s1, s2, s3, s4, s5, s6, s7, s8, s9, s10, s11, s12, s13]

/-- C5 witness: a stranger who neither holds the token nor appears as a
delegate is rejected with `InvalidAuthorityType`. -/
theorem burn_authority_resolution_witness :
    burn_v1 bCtxStranger 1 = .error .InvalidAuthorityType :=
  (burn_authority_resolution bCtxStranger 1 (by decide) (by decide) (by decide)).2.2

/-- C8: on a burn of an asset in the NonFungible family by the current
holder, a requested amount other than one fails with `InvalidAmount`,
and with amount one a missing edition account fails with
`MissingEdition`. In this pure embedding an error result carries no
effects, so both checks reject before any mutation. -/
theorem burn_nf_family_checks (ctx : BurnCtx) (amount : Nat) (ts : TokenStandard)
    (hs : burn_structural_ok ctx) (hh : burn_holder_ok ctx)
    (hts : ctx.metadata.tokenStandard = some ts)
    (hnf : nonfungible_family ts = true) :
    (amount ≠ 1 → burn_v1 ctx amount = .error .InvalidAmount) ∧
    (ctx.editionOwnerProg = none → amount = 1 →
      burn_v1 ctx amount = .error .MissingEdition) := by
  constructor
  · intro hne1
    rw [burn_v1_holder_stage ctx amount hs hh]
    simp [burn_post_auth, hts, hnf, bne_iff_ne, hne1]
  · intro hed h1
    subst h1
    rw [burn_v1_holder_stage ctx 1 hs hh]
    simp [burn_post_auth, hts, hnf, hed]

/-- C8 witness: burning two units of a ProgrammableNonFungible asset is
rejected, and burning one without an edition account is rejected. -/
theorem burn_nf_family_checks_witness :
    burn_v1 bCtx 2 = .error .InvalidAmount ∧
    burn_v1 bCtxNoEdition 1 = .error .MissingEdition := by
  constructor
  · exact (burn_nf_family_checks bCtx 2 TokenStandard.ProgrammableNonFungible
      (by decide) (by decide) rfl rfl).1 (by decide)
  · exact (burn_nf_family_checks bCtxNoEdition 1 TokenStandard.ProgrammableNonFungible
      (by decide) (by decide) rfl rfl).2 rfl rfl

/-- C6: for metadata-scoped delegate creation, an approver who is not
the current update authority of the metadata is rejected; a successful
creation allocates the record at the address derived from (mint, role,
approver, delegate); and if that exact record account already holds data
the creation fails with `DelegateAlreadyExists`. -/
theorem metadata_delegate_creation (ctx : DelegateCtx) (role : MetadataDelegateRole)
    (hp : ctx.payerIsSigner = true) (ha : ctx.approverIsSigner = true)
    (hmo : ctx.metadataOwnerProg = ctx.programId)
    (hmi : ctx.mintOwnerProg = splTokenID)
    (hsys : ctx.systemProgramKey = systemProgramID)
    (hsysvar : ctx.sysvarInstructionsKey = sysvarInstructionsID) :
    (ctx.metadata.updateAuthority ≠ ctx.approverKey →
      create_delegate_v1 ctx role = .error .UpdateAuthorityIncorrect) ∧
    (∀ dri : DelegateRecordInfo,
      ctx.metadata.updateAuthority = ctx.approverKey →
      ctx.metadata.mint = ctx.mintKey →
      ctx.delegateRecordInfo = some dri →
      dri.key = metadata_delegate_record_key ctx.programId ctx.mintKey role
        ctx.approverKey ctx.delegateKey →
      dri.dataIsEmpty = true →
      create_delegate_v1 ctx role =
        .ok { recordKey := metadata_delegate_record_key ctx.programId ctx.mintKey role
                ctx.approverKey ctx.delegateKey
              record := { bump := 0, mint := ctx.mintKey, delegate := ctx.delegateKey } }) ∧
    (∀ dri : DelegateRecordInfo,
      ctx.metadata.updateAuthority = ctx.approverKey →
      ctx.metadata.mint = ctx.mintKey →
      ctx.delegateRecordInfo = some dri →
      dri.key = metadata_delegate_record_key ctx.programId ctx.mintKey role
        ctx.approverKey ctx.delegateKey →
      dri.dataIsEmpty = false →
      create_delegate_v1 ctx role = .error .DelegateAlreadyExists) := by
  refine ⟨?_, ?_, ?_⟩
  · intro hua
    simp [create_delegate_v1, hp, ha, hmo, hmi, hsys, hsysvar, hua]
  · intro dri hua hmm hdri hkey hempty
    simp [create_delegate_v1, create_pda_account, hp, ha, hmo, hmi, hsys, hsysvar,
      hua, hmm, hdri, hkey, hempty]
  · intro dri hua hmm hdri hkey hempty
    simp [create_delegate_v1, create_pda_account, hp, ha, hmo, hmi, hsys, hsysvar,
      hua, hmm, hdri, hkey, hempty]

/-- C6 witness: the three cases at concrete metadata-delegate contexts. -/
theorem metadata_delegate_creation_witness :
    create_delegate_v1 dCtxWrongAuthority MetadataDelegateRole.Collection =
      .error .UpdateAuthorityIncorrect ∧
    create_delegate_v1 dCtxCollection MetadataDelegateRole.Collection =
      .ok { recordKey := collectionRecordKey
            record := { bump := 0, mint := 20, delegate := 11 } } ∧
    create_delegate_v1 dCtxCollectionTaken MetadataDelegateRole.Collection =
      .error .DelegateAlreadyExists := by
  refine ⟨?_, ?_, ?_⟩
  · exact (metadata_delegate_creation dCtxWrongAuthority MetadataDelegateRole.Collection
      rfl rfl rfl rfl rfl rfl).1 (by decide)
  · exact (metadata_delegate_creation dCtxCollection MetadataDelegateRole.Collection
      rfl rfl rfl rfl rfl rfl).2.1 driEmpty rfl rfl rfl rfl rfl
  · exact (metadata_delegate_creation dCtxCollectionTaken MetadataDelegateRole.Collection
      rfl rfl rfl rfl rfl rfl).2.2 driTaken rfl rfl rfl rfl rfl
